import Mathlib

/-!
Shallow embedding of `src/RDSInstance.ts` (the `RDSInstance` construct of
the sst-t3-example repository) together with the pieces of its external
collaborators (the CDK provisioning engine and the SST `App`) that the
construct reads.  Pure functions of the source become Lean functions;
the constructor, which can throw, becomes a function into `Except String`.
-/

namespace RDSInstanceSpec

/-- An AWS Secrets Manager secret handle (`secretsManager.ISecret`):
the wrapper only reads `secretArn` and `secretFullArn` (the latter may be
absent on imported secrets). -/
structure Secret where
  secretArn : String
  secretFullArn : Option String
deriving DecidableEq

/-- An EC2 VPC handle (`ec2.IVpc`).  The wrapper only sets `natGateways`
when it creates one itself (`new ec2.Vpc(this, "vpc", { natGateways: 0 })`),
so that is the one attribute modelled. -/
structure Vpc where
  natGateways : Nat
deriving DecidableEq

/-- `ec2.SubnetType` values used by this repository. -/
inductive SubnetType where
  | PUBLIC
  | PRIVATE_WITH_EGRESS
  | PRIVATE_ISOLATED
deriving DecidableEq

/-- `ec2.SubnetSelection` as used here: a selection by subnet type. -/
structure SubnetSelection where
  subnetType : SubnetType
deriving DecidableEq

/-- `ec2.InstanceClass` values (the source uses `BURSTABLE3`; a second
value witnesses that overrides are passed through unchanged). -/
inductive InstanceClass where
  | BURSTABLE3
  | BURSTABLE2
  | MEMORY5
deriving DecidableEq

/-- `ec2.InstanceSize` values (the source uses `SMALL`). -/
inductive InstanceSize where
  | SMALL
  | MEDIUM
  | LARGE
deriving DecidableEq

/-- `ec2.InstanceType`: a class/size pair. -/
structure InstanceType where
  instanceClass : InstanceClass
  instanceSize : InstanceSize
deriving DecidableEq

/-- `ec2.InstanceType.of(instanceClass, instanceSize)`. -/
def InstanceType.of (c : InstanceClass) (s : InstanceSize) : InstanceType :=
  ⟨c, s⟩

/-- `rds.IInstanceEngine` as produced by `getEngine`: an engine family
with a version string (`rds.MysqlEngineVersion.VER_5_7` is version "5.7",
`rds.PostgresEngineVersion.VER_11_13` is version "11.13"). -/
inductive InstanceEngine where
  | mysql (version : String)
  | postgres (version : String)
deriving DecidableEq

/-- `rds.Credentials` as far as the wrapper inspects it: it only checks
whether a managed secret backs the credentials (`credentials.secret`). -/
structure Credentials where
  secret : Option Secret
deriving DecidableEq

/-- `RDSCdkDatabaseInstanceProps`, the override bag (`cdk.instance` given
as a property bag).  Every field the wrapper reads is optional; absent
fields are `none`. -/
structure RDSCdkDatabaseInstanceProps where
  engine : Option String
  vpc : Option Vpc
  databaseName : Option String
  credentials : Option Credentials
  vpcSubnets : Option SubnetSelection
  instanceType : Option InstanceType
  instanceIdentifier : Option String
deriving DecidableEq

/-- The empty override bag (`cdk?.instance || {}` when no bag was given). -/
def emptyBag : RDSCdkDatabaseInstanceProps :=
  ⟨none, none, none, none, none, none, none⟩

/-- An already-provisioned database instance handle
(`rds.IDatabaseInstance`), as imported via `cdk.instance` given as a
construct. -/
structure ImportedInstance where
  instanceArn : String
  instanceIdentifier : String
  endpointHostname : String
deriving DecidableEq

/-- `cdk.instance` is either an existing CDK construct handle or a
property bag of overrides (`rds.IDatabaseInstance | RDSCdkDatabaseInstanceProps`). -/
inductive CdkInstance where
  | construct (handle : ImportedInstance)
  | props (bag : RDSCdkDatabaseInstanceProps)
deriving DecidableEq

/-- The `cdk` property of `RDSInstanceProps`. -/
structure CdkProps where
  id : Option String
  inst : Option CdkInstance
  secret : Option Secret
deriving DecidableEq

/-- `RDSInstanceProps`: the wrapper's configuration record.  `engine` is
modelled as a plain string because `getEngine` handles (and rejects)
arbitrary strings at runtime. -/
structure RDSInstanceProps where
  vpc : Option Vpc
  databaseName : String
  engine : String
  cdk : Option CdkProps
deriving DecidableEq

/-- `isCDKConstruct(cdk.instance)`: true exactly when the optional
`cdk.instance` value is an existing construct handle. -/
def isCDKConstruct : Option CdkInstance → Bool
  | some (.construct _) => true
  | _ => false

/-- JavaScript truthiness of an optional string: absent and `""` are
falsy. -/
def strTruthy : Option String → Bool
  | some s => s ≠ ""
  | none => false

/-- JavaScript `a || b` on an optional string `a` with fallback `b`
(used for `this.secret.secretFullArn || secretArn + "*"` and
`props.cdk?.id || id`). -/
def orTruthy : Option String → String → String
  | some s, d => if s = "" then d else s
  | none, d => d

/-- The SST `App` handle.  Modelled from the spec: the provisioning
framework's application object, whose naming convention derives
identifiers from a stack-scoped prefix (stage and app name) — the
framework itself is outside this repository. -/
structure App where
  stage : String
  name : String
deriving DecidableEq

/-- Modelled from the spec: `app.logicalPrefixedName(logicalId)` of the
external SST framework — the stack-scoped prefix applied to the logical
id. -/
def logicalPrefixedName (app : App) (logicalId : String) : String :=
  app.stage ++ "-" ++ app.name ++ "-" ++ logicalId

/-- Attributes synthesized by the external provisioning engine when a new
`rds.DatabaseInstance` is created: its ARN, its endpoint hostname, and
the generated managed secret (created when no credentials secret is
supplied).  They are parameters of the model, not computed by this
repository's code. -/
structure Synthesized where
  instanceArn : String
  endpointHostname : String
  generatedSecret : Secret
deriving DecidableEq

/-- The resolved `rds.DatabaseInstance`: the properties the wrapper passes
to `new rds.DatabaseInstance(...)` together with the engine-synthesized
attributes. -/
structure DatabaseInstance where
  instanceIdentifier : String
  engine : InstanceEngine
  vpc : Vpc
  vpcSubnets : Option SubnetSelection
  instanceType : Option InstanceType
  databaseName : String
  secret : Option Secret
  instanceArn : String
  endpointHostname : String
deriving DecidableEq

/-- The wrapper's `cdk.instance` after construction: either the instance
it created or the imported handle. -/
inductive InstanceRef where
  | created (d : DatabaseInstance)
  | imported (h : ImportedInstance)
deriving DecidableEq

/-- The wrapper's state after a successful construction: its ids, the
stored props, the instance reference and the secret
(`this.secret`). -/
structure RDSInstanceState where
  id : String
  nodeId : String
  props : RDSInstanceProps
  inst : InstanceRef
  secret : Secret
deriving DecidableEq

/-- The TypeScript non-null assertion `x!` on an optional secret: a
type-level assertion, always applied where the value is present. -/
def secretBang (o : Option Secret) : Secret :=
  o.getD ⟨"", none⟩

/-- `this.node.id`: `super(scope, props.cdk?.id || id)` makes the node id
the override id when truthy, else the given id. -/
def nodeIdOf (id : String) (props : RDSInstanceProps) : String :=
  match props.cdk with
  | some c => orTruthy c.id id
  | none => id

/-- Error message thrown when the override bag sets `engine`
(line 180 of `RDSInstance.ts`). -/
def engineConflictMsg : String :=
  "Use \"engine\" instead of \"cdk.instance.engine\" to configure the RDS database engine."

/-- Error message thrown when the override bag sets `vpc`. -/
def vpcConflictMsg : String :=
  "Use \"vpc\" instead of \"cdk.instance.vpc\" to configure the RDS database vpc."

/-- Error message thrown when the override bag sets `databaseName` (the
source message ends in "engine", faithfully reproduced). -/
def databaseNameConflictMsg : String :=
  "Use \"databaseName\" instead of \"cdk.instance.databaseName\" to configure the RDS database engine."

/-- Error message thrown when credentials are not backed by a managed
secret. -/
def credentialsMsg : String :=
  "Only credentials managed by SecretManager are supported for the \"cdk.instance.credentials\"."

/-- Error message thrown when an unsupported engine string is given. -/
def unsupportedEngineMsg : String :=
  "The specified \"engine\" is not supported for sst.RDS. Only mysql5.6, mysql5.7, postgresql10.14, and postgresql11.13 engines are currently supported."

/-- Error message thrown when importing an existing instance without a
companion secret. -/
def missingSecretMsg (nodeId : String) : String :=
  "Missing \"cdk.secret\" in the \"" ++ nodeId ++ "\" RDS. You must provide a secret to import an existing RDS Serverless Instance."

/-- `validateCDKPropWhenIsConstruct`: requires `cdk?.secret` to be
present (truthy), else throws the missing-secret error. -/
def validateCDKPropWhenIsConstruct (nodeId : String) (cdk : Option CdkProps) :
    Except String Unit :=
  match cdk with
  | some c =>
    match c.secret with
    | some _ => .ok ()
    | none => .error (missingSecretMsg nodeId)
  | none => .error (missingSecretMsg nodeId)

/-- `validateCDKPropWhenIsInstanceProps`: rejects an override bag that
redundantly sets `engine`, `vpc` or `databaseName` (JavaScript truthiness)
and credentials not backed by a managed secret, in source order. -/
def validateCDKPropWhenIsInstanceProps (bag : RDSCdkDatabaseInstanceProps) :
    Except String Unit :=
  if strTruthy bag.engine then .error engineConflictMsg
  else if bag.vpc.isSome then .error vpcConflictMsg
  else if strTruthy bag.databaseName then .error databaseNameConflictMsg
  else
    match bag.credentials with
    | some c => if c.secret.isSome then .ok () else .error credentialsMsg
    | none => .ok ()

/-- `getEngine`: maps the engine string to a concrete engine+version, or
throws for any other string. -/
def getEngine (engine : String) : Except String InstanceEngine :=
  if engine = "mysql5.7" then
    .ok (.mysql "5.7")
  else if engine = "postgresql11.13" then
    .ok (.postgres "11.13")
  else
    .error unsupportedEngineMsg

/-- `getVpc`: the supplied VPC, else a newly created VPC with zero NAT
gateways. -/
def getVpc (vpc : Option Vpc) : Vpc :=
  match vpc with
  | some v => v
  | none => ⟨0⟩

/-- `getVpcSubnets`: the bag's `vpcSubnets` when the bag's `vpc` is set,
else the isolated-private default. -/
def getVpcSubnets (bag : RDSCdkDatabaseInstanceProps) : Option SubnetSelection :=
  if bag.vpc.isSome then
    bag.vpcSubnets
  else
    some ⟨.PRIVATE_ISOLATED⟩

/-- `getInstanceType`: the bag's `instanceType` when set, else the small
burstable default `InstanceType.of(BURSTABLE3, SMALL)`. -/
def getInstanceType (bag : RDSCdkDatabaseInstanceProps) : Option InstanceType :=
  match bag.instanceType with
  | some t => some t
  | none => some (InstanceType.of .BURSTABLE3 .SMALL)

/-- `createInstance`: resolves every property and constructs the new
`rds.DatabaseInstance`.  The object literal spreads the override bag
after the default `instanceIdentifier` (so a bag identifier wins) and
then sets `engine`, `vpc`, `vpcSubnets`, `instanceType` and
`databaseName` after the spread (so the resolved values win).  A thrown
`getEngine` error aborts construction. -/
def createInstance (app : App) (syn : Synthesized) (nodeId : String)
    (props : RDSInstanceProps) (bag : RDSCdkDatabaseInstanceProps) :
    Except String DatabaseInstance :=
  match getEngine (if props.engine = "" then "mysql5.7" else props.engine) with
  | .error e => .error e
  | .ok eng =>
    .ok
      { instanceIdentifier := bag.instanceIdentifier.getD (logicalPrefixedName app nodeId)
        engine := eng
        vpc := getVpc props.vpc
        vpcSubnets := getVpcSubnets bag
        instanceType := getInstanceType bag
        databaseName := props.databaseName
        secret :=
          match bag.credentials with
          | some c => c.secret
          | none => some syn.generatedSecret
        instanceArn := syn.instanceArn
        endpointHostname := syn.endpointHostname }

/-- The create-new branch of the constructor: validate the override bag,
create the instance, and take `this.secret` from the created instance
(`this.cdk.instance.secret!`). -/
def constructViaCreate (app : App) (syn : Synthesized) (id : String)
    (props : RDSInstanceProps) (bag : RDSCdkDatabaseInstanceProps) :
    Except String RDSInstanceState :=
  match validateCDKPropWhenIsInstanceProps bag with
  | .error e => .error e
  | .ok _ =>
    match createInstance app syn (nodeIdOf id props) props bag with
    | .error e => .error e
    | .ok d =>
      .ok
        { id := id
          nodeId := nodeIdOf id props
          props := props
          inst := .created d
          secret := secretBang d.secret }

/-- The `RDSInstance` constructor: dispatches on
`cdk && isCDKConstruct(cdk.instance)`.  On the import branch it validates
the companion secret, imports the handle as-is and stores `cdk.secret!`;
otherwise it validates the bag (`cdk?.instance || {}`) and creates a new
instance. -/
def construct (app : App) (syn : Synthesized) (id : String)
    (props : RDSInstanceProps) : Except String RDSInstanceState :=
  match props.cdk with
  | some c =>
    match c.inst with
    | some (.construct hdl) =>
      match validateCDKPropWhenIsConstruct (nodeIdOf id props) props.cdk with
      | .error e => .error e
      | .ok _ =>
        .ok
          { id := id
            nodeId := nodeIdOf id props
            props := props
            inst := .imported hdl
            secret := secretBang c.secret }
    | some (.props bag) => constructViaCreate app syn id props bag
    | none => constructViaCreate app syn id props emptyBag
  | none => constructViaCreate app syn id props emptyBag

/-- `this.secretArn`. -/
def RDSInstanceState.secretArn (st : RDSInstanceState) : String :=
  st.secret.secretArn

/-- `this.instanceArn`. -/
def RDSInstanceState.instanceArn (st : RDSInstanceState) : String :=
  match st.inst with
  | .created d => d.instanceArn
  | .imported h => h.instanceArn

/-- `this.instanceIdentifier`. -/
def RDSInstanceState.instanceIdentifier (st : RDSInstanceState) : String :=
  match st.inst with
  | .created d => d.instanceIdentifier
  | .imported h => h.instanceIdentifier

/-- `this.instanceEndpoint` (the endpoint hostname). -/
def RDSInstanceState.instanceEndpoint (st : RDSInstanceState) : String :=
  match st.inst with
  | .created d => d.endpointHostname
  | .imported h => h.endpointHostname

/-- `this.databaseName`. -/
def RDSInstanceState.databaseName (st : RDSInstanceState) : String :=
  st.props.databaseName

/-- The subnet selection the wrapper passed to the provisioning engine
for a created instance (`none` when the instance was imported). -/
def RDSInstanceState.createdVpcSubnets (st : RDSInstanceState) :
    Option SubnetSelection :=
  match st.inst with
  | .created d => d.vpcSubnets
  | .imported _ => none

/-- The VPC the wrapper passed to the provisioning engine for a created
instance. -/
def RDSInstanceState.createdVpc (st : RDSInstanceState) : Option Vpc :=
  match st.inst with
  | .created d => some d.vpc
  | .imported _ => none

/-- The instance type the wrapper passed to the provisioning engine for a
created instance. -/
def RDSInstanceState.createdInstanceType (st : RDSInstanceState) :
    Option InstanceType :=
  match st.inst with
  | .created d => d.instanceType
  | .imported _ => none

/-- A binding variable `{ type, value }` of `FunctionBindingProps`. -/
structure BindingVar where
  type : String
  value : String
deriving DecidableEq

/-- `FunctionBindingProps`: the binding descriptor, with `variables` and
`permissions` as association lists in object-literal order. -/
structure FunctionBindingProps where
  clientPackage : String
  vars : List (String × BindingVar)
  permissions : List (String × List String)
deriving DecidableEq

/-- `getFunctionBinding`: the descriptor built from the constructed
state. -/
def getFunctionBinding (st : RDSInstanceState) : FunctionBindingProps :=
  { clientPackage := "rds"
    vars :=
      [("instanceArn", ⟨"plain", st.instanceArn⟩),
       ("secretArn", ⟨"plain", st.secretArn⟩),
       ("databaseName", ⟨"plain", st.databaseName⟩)]
    permissions :=
      [("rds-data:*", [st.instanceArn]),
       ("secretsmanager:GetSecretValue",
         [orTruthy st.secret.secretFullArn (st.secret.secretArn ++ "*")]),
       ("secretsmanager:DescribeSecret",
         [orTruthy st.secret.secretFullArn (st.secret.secretArn ++ "*")])] }

/-- Whether `pat` is a prefix of `s` (over character lists). -/
def charsHavePref : List Char → List Char → Bool
  | [], _ => true
  | _ :: _, [] => false
  | a :: as, b :: bs => a = b && charsHavePref as bs

/-- Whether `pat` occurs contiguously inside `s` (over character lists). -/
def charsHaveSub (pat : List Char) : List Char → Bool
  | [] => charsHavePref pat []
  | c :: rest => charsHavePref pat (c :: rest) || charsHaveSub pat rest

/-- Whether the string `pat` occurs inside the string `s`. -/
def strContains (s pat : String) : Bool :=
  charsHaveSub pat.data s.data

/-- Whether `props` takes the import branch of the constructor
(`cdk && isCDKConstruct(cdk.instance)`). -/
def takesImportPath (props : RDSInstanceProps) : Bool :=
  match props.cdk with
  | some c => isCDKConstruct c.inst
  | none => false

/-- The override bag the create branch works with
(`cdk?.instance || {}` when the instance field is not a construct). -/
def bagOf (props : RDSInstanceProps) : RDSCdkDatabaseInstanceProps :=
  match props.cdk with
  | some c =>
    match c.inst with
    | some (.props b) => b
    | _ => emptyBag
  | none => emptyBag

/-- A concrete SST app used to instantiate the quantified theorems
below. -/
def app0 : App := ⟨"dev", "t3"⟩

/-- Concrete engine-synthesized attributes used in the instantiations. -/
def syn0 : Synthesized :=
  ⟨"arn:aws:rds:us-east-1:123456789012:db:inst0", "inst0.rds.internal",
    ⟨"arn:aws:secretsmanager:us-east-1:123456789012:secret:gen0", none⟩⟩

/-- A placeholder state used when destructuring `Except` results of
`construct` on branches already known to succeed. -/
def fallbackState : RDSInstanceState :=
  ⟨"", "", ⟨none, "", "", none⟩, .imported ⟨"", "", ""⟩, ⟨"", none⟩⟩

/-- The state of a successful construction (falls back to
`fallbackState` on the error branch, never taken where this is
used). -/
def okStateD (r : Except String RDSInstanceState) : RDSInstanceState :=
  match r with
  | .ok st => st
  | .error _ => fallbackState

/-- Override bag that redundantly sets `engine`. -/
def bagC1 : RDSCdkDatabaseInstanceProps := { emptyBag with engine := some "mysql8.0" }

/-- `cdk` property carrying `bagC1`. -/
def cdkC1 : CdkProps := ⟨none, some (.props bagC1), none⟩

/-- A configuration taking the create-new path with a conflicting
override bag. -/
def propsC1 : RDSInstanceProps := ⟨none, "db1", "mysql5.7", some cdkC1⟩

/-- A concrete existing-instance handle. -/
def hdl0 : ImportedInstance :=
  ⟨"arn:aws:rds:us-east-1:123456789012:db:imported0", "imported0",
    "imported0.rds.internal"⟩

/-- A concrete companion secret with a full ARN. -/
def sec0 : Secret :=
  ⟨"arn:aws:secretsmanager:us-east-1:123456789012:secret:app0",
    some "arn:aws:secretsmanager:us-east-1:123456789012:secret:app0-AbCdEf"⟩

/-- `cdk` property importing `hdl0` with companion secret `sec0`. -/
def cdkC2 : CdkProps := ⟨none, some (.construct hdl0), some sec0⟩

/-- A configuration taking the import path with a companion secret. -/
def propsC2 : RDSInstanceProps := ⟨none, "db1", "mysql5.7", some cdkC2⟩

/-- Override bag carrying a caller-supplied subnet selection (and no
`vpc` of its own, as validation requires). -/
def bagC4 : RDSCdkDatabaseInstanceProps :=
  { emptyBag with vpcSubnets := some ⟨SubnetType.PUBLIC⟩ }

/-- `cdk` property carrying `bagC4`. -/
def cdkC4 : CdkProps := ⟨none, some (.props bagC4), none⟩

/-- A create-path configuration with a caller-supplied VPC and a
caller-supplied subnet selection in the override bag. -/
def propsC4 : RDSInstanceProps := ⟨some ⟨1⟩, "db1", "mysql5.7", some cdkC4⟩

/-- A create-path configuration with no VPC and no overrides at all. -/
def propsC6 : RDSInstanceProps := ⟨none, "db1", "postgresql11.13", none⟩

/-- Override bag carrying a caller-supplied instance type. -/
def bagC7 : RDSCdkDatabaseInstanceProps :=
  { emptyBag with
      instanceType := some ⟨InstanceClass.BURSTABLE2, InstanceSize.MEDIUM⟩ }

/-- `cdk` property carrying `bagC7`. -/
def cdkC7 : CdkProps := ⟨none, some (.props bagC7), none⟩

/-- A create-path configuration with a sizing override. -/
def propsC7 : RDSInstanceProps := ⟨none, "db1", "mysql5.7", some cdkC7⟩

/-- Override bag whose credentials are not backed by a managed secret. -/
def bagC8 : RDSCdkDatabaseInstanceProps :=
  { emptyBag with credentials := some ⟨none⟩ }

/-- `cdk` property carrying `bagC8`. -/
def cdkC8 : CdkProps := ⟨none, some (.props bagC8), none⟩

/-- A create-path configuration with secret-less credentials. -/
def propsC8 : RDSInstanceProps := ⟨none, "db1", "mysql5.7", some cdkC8⟩

/-- The end-to-end configuration of the spec:
`{databaseName: "db1", engine: "mysql5.7"}` with no VPC and no
overrides. -/
def propsC9 : RDSInstanceProps := ⟨none, "db1", "mysql5.7", none⟩

/-- A companion secret with a full ARN for the binding-descriptor
instantiation. -/
def secC10 : Secret :=
  ⟨"arn:aws:secretsmanager:us-east-1:123456789012:secret:c10",
    some "arn:aws:secretsmanager:us-east-1:123456789012:secret:c10-XyZ"⟩

/-- An existing-instance handle for the binding-descriptor
instantiation. -/
def hdlC10 : ImportedInstance :=
  ⟨"arn:aws:rds:us-east-1:123456789012:db:c10", "c10", "c10.rds.internal"⟩

/-- An import-path configuration whose secret carries a full ARN. -/
def propsC10 : RDSInstanceProps :=
  ⟨none, "db1", "mysql5.7", some ⟨none, some (.construct hdlC10), some secC10⟩⟩

lemma validate_ok_facts (bag : RDSCdkDatabaseInstanceProps)
    (h : validateCDKPropWhenIsInstanceProps bag = .ok ()) :
    strTruthy bag.engine = false ∧ bag.vpc = none ∧
      strTruthy bag.databaseName = false := by
  cases he : strTruthy bag.engine <;> cases hv : bag.vpc <;>
    cases hd : strTruthy bag.databaseName <;>
      simp_all [validateCDKPropWhenIsInstanceProps]

lemma construct_eq_create (app : App) (syn : Synthesized) (id : String)
    (props : RDSInstanceProps) (h : takesImportPath props = false) :
    construct app syn id props = constructViaCreate app syn id props (bagOf props) := by
  unfold construct bagOf
  cases hc : props.cdk with
  | none => rfl
  | some c =>
    cases hi : c.inst with
    | none => simp [hi]
    | some ci =>
      cases ci with
      | construct hdl =>
        exfalso
        simp [takesImportPath, hc, hi, isCDKConstruct] at h
      | props bag => simp [hi]

lemma constructViaCreate_ok (app : App) (syn : Synthesized) (id : String)
    (props : RDSInstanceProps) (bag : RDSCdkDatabaseInstanceProps)
    (st : RDSInstanceState)
    (h : constructViaCreate app syn id props bag = .ok st) :
    validateCDKPropWhenIsInstanceProps bag = .ok () ∧
    ∃ eng,
      getEngine (if props.engine = "" then "mysql5.7" else props.engine) = .ok eng ∧
      st =
        { id := id
          nodeId := nodeIdOf id props
          props := props
          inst := .created
            { instanceIdentifier :=
                bag.instanceIdentifier.getD (logicalPrefixedName app (nodeIdOf id props))
              engine := eng
              vpc := getVpc props.vpc
              vpcSubnets := getVpcSubnets bag
              instanceType := getInstanceType bag
              databaseName := props.databaseName
              secret :=
                match bag.credentials with
                | some c => c.secret
                | none => some syn.generatedSecret
              instanceArn := syn.instanceArn
              endpointHostname := syn.endpointHostname }
          secret :=
            secretBang
              (match bag.credentials with
               | some c => c.secret
               | none => some syn.generatedSecret) } := by
  unfold constructViaCreate at h
  cases hv : validateCDKPropWhenIsInstanceProps bag with
  | error e => rw [hv] at h; simp at h
  | ok u =>
    cases u
    rw [hv] at h
    unfold createInstance at h
    cases he : getEngine (if props.engine = "" then "mysql5.7" else props.engine) with
    | error e => rw [he] at h; simp at h
    | ok eng =>
      rw [he] at h
      simp only [Except.ok.injEq] at h
      exact ⟨rfl, eng, rfl, h.symm⟩

/-- C1: for every configuration on the create-new path whose override
bag carries a truthy `engine`, `vpc`, or `databaseName` (checked in
source order), construction fails with the error message that names the
conflicting field and tells the caller to use the top-level field, so no
instance is created. -/
theorem c1_override_conflicts (app : App) (syn : Synthesized) (id : String)
    (props : RDSInstanceProps) (c : CdkProps) (bag : RDSCdkDatabaseInstanceProps)
    (hc : props.cdk = some c) (hi : c.inst = some (.props bag)) :
    (strTruthy bag.engine = true →
      construct app syn id props = .error engineConflictMsg) ∧
    (strTruthy bag.engine = false → bag.vpc.isSome = true →
      construct app syn id props = .error vpcConflictMsg) ∧
    (strTruthy bag.engine = false → bag.vpc.isSome = false →
      strTruthy bag.databaseName = true →
      construct app syn id props = .error databaseNameConflictMsg) := by
  refine ⟨?_, ?_, ?_⟩
  · intro h1
    simp [construct, hc, hi, constructViaCreate,
      validateCDKPropWhenIsInstanceProps, h1]
  · intro h1 h2
    simp [construct, hc, hi, constructViaCreate,
      validateCDKPropWhenIsInstanceProps, h1, h2]
  · intro h1 h2 h3
    simp [construct, hc, hi, constructViaCreate,
      validateCDKPropWhenIsInstanceProps, h1, h2, h3]

/-- C1 witness: the conflicting-engine bag `bagC1` makes construction of
`propsC1` fail with the engine-conflict message. -/
theorem c1_witness :
    strTruthy bagC1.engine = true ∧
    construct app0 syn0 "db" propsC1 = .error engineConflictMsg :=
  ⟨by decide,
    (c1_override_conflicts app0 syn0 "db" propsC1 cdkC1 bagC1 rfl rfl).1 (by decide)⟩

/-- C2: when `cdk.instance` is an existing construct handle,
construction fails with the missing-secret error if `cdk.secret` is
absent; when `cdk.secret` is present the handle is imported as-is and
the wrapper's secret is exactly the supplied `cdk.secret`. -/
theorem c2_import_path (app : App) (syn : Synthesized) (id : String)
    (props : RDSInstanceProps) (c : CdkProps) (hdl : ImportedInstance)
    (hc : props.cdk = some c) (hi : c.inst = some (.construct hdl)) :
    (c.secret = none →
      construct app syn id props = .error (missingSecretMsg (nodeIdOf id props))) ∧
    (∀ s, c.secret = some s →
      construct app syn id props =
        .ok { id := id, nodeId := nodeIdOf id props, props := props,
              inst := .imported hdl, secret := s }) := by
  constructor
  · intro hs
    simp [construct, hc, hi, validateCDKPropWhenIsConstruct, hs]
  · intro s hs
    simp [construct, hc, hi, validateCDKPropWhenIsConstruct, hs, secretBang]

/-- C2 witness: importing `hdl0` with companion secret `sec0` succeeds,
keeps the handle as-is and stores exactly `sec0`. -/
theorem c2_witness :
    cdkC2.secret = some sec0 ∧
    construct app0 syn0 "db" propsC2 =
      .ok { id := "db", nodeId := "db", props := propsC2,
            inst := .imported hdl0, secret := sec0 } :=
  ⟨rfl, (c2_import_path app0 syn0 "db" propsC2 cdkC2 hdl0 rfl rfl).2 sec0 rfl⟩

/-- C3: engine resolution maps "mysql5.7" to the MySQL engine at version
5.7 and "postgresql11.13" to the PostgreSQL engine at version 11.13, and
fails with the unsupported-engine error on every other string. -/
theorem c3_engine_resolution :
    getEngine "mysql5.7" = .ok (.mysql "5.7") ∧
    getEngine "postgresql11.13" = .ok (.postgres "11.13") ∧
    ∀ s, s ≠ "mysql5.7" → s ≠ "postgresql11.13" →
      getEngine s = .error unsupportedEngineMsg := by
  refine ⟨rfl, rfl, ?_⟩
  intro s h1 h2
  unfold getEngine
  rw [if_neg h1, if_neg h2]

/-- C3 witness: "mysql8.0" is neither supported string and resolution
fails on it. -/
theorem c3_witness :
    ("mysql8.0" : String) ≠ "mysql5.7" ∧
    ("mysql8.0" : String) ≠ "postgresql11.13" ∧
    getEngine "mysql8.0" = .error unsupportedEngineMsg :=
  ⟨by decide, by decide,
    c3_engine_resolution.2.2 "mysql8.0" (by decide) (by decide)⟩

/-- C5 counterexample: at the unsupported input "foo" resolution fails,
but the error message also names "mysql5.6", a value engine resolution
itself rejects — so the message does not list exactly the supported
engine values. -/
theorem c5_counterexample :
    getEngine "foo" = .error unsupportedEngineMsg ∧
    strContains unsupportedEngineMsg "mysql5.6" = true ∧
    getEngine "mysql5.6" = .error unsupportedEngineMsg :=
  ⟨rfl, by decide, rfl⟩

/-- C5 (amended): every unsupported engine string fails with a message
that lists the supported values "mysql5.7" and "postgresql11.13"
together with "mysql5.6" and "postgresql10.14", two values engine
resolution does not accept. -/
theorem c5_amended_message (s : String) (h1 : s ≠ "mysql5.7")
    (h2 : s ≠ "postgresql11.13") :
    getEngine s = .error unsupportedEngineMsg ∧
    strContains unsupportedEngineMsg "mysql5.7" = true ∧
    strContains unsupportedEngineMsg "postgresql11.13" = true ∧
    strContains unsupportedEngineMsg "mysql5.6" = true ∧
    strContains unsupportedEngineMsg "postgresql10.14" = true ∧
    getEngine "mysql5.6" = .error unsupportedEngineMsg ∧
    getEngine "postgresql10.14" = .error unsupportedEngineMsg := by
  refine ⟨?_, by decide, by decide, by decide, by decide, rfl, rfl⟩
  unfold getEngine
  rw [if_neg h1, if_neg h2]

/-- C5 witness: the amended statement at the unsupported input
"sqlserver". -/
theorem c5_witness :
    ("sqlserver" : String) ≠ "mysql5.7" ∧
    ("sqlserver" : String) ≠ "postgresql11.13" ∧
    getEngine "sqlserver" = .error unsupportedEngineMsg ∧
    strContains unsupportedEngineMsg "mysql5.7" = true := by
  have h := c5_amended_message "sqlserver" (by decide) (by decide)
  exact ⟨by decide, by decide, h.1, h.2.1⟩

/-- C4 counterexample: with a caller-supplied VPC and a caller-supplied
subnet selection (`PUBLIC`) in the override bag, construction succeeds
and the subnet selection passed to the provisioning engine is the
isolated-private default, not the caller-supplied selection. -/
theorem c4_counterexample :
    propsC4.vpc = some ⟨1⟩ ∧
    bagC4.vpcSubnets = some ⟨SubnetType.PUBLIC⟩ ∧
    construct app0 syn0 "db" propsC4 = .ok (okStateD (construct app0 syn0 "db" propsC4)) ∧
    (okStateD (construct app0 syn0 "db" propsC4)).createdVpcSubnets =
      some ⟨SubnetType.PRIVATE_ISOLATED⟩ ∧
    (okStateD (construct app0 syn0 "db" propsC4)).createdVpcSubnets ≠ bagC4.vpcSubnets :=
  ⟨rfl, rfl, rfl, rfl, by decide⟩

/-- C4 (amended): on the create-new path the subnet selection passed to
the provisioning engine is always the isolated-private default, whether
or not a VPC was supplied: `getVpcSubnets` consults the override bag's
own `vpc` field, which validation forces to be absent, so the bag's
`vpcSubnets` is never used. -/
theorem c4_amended_isolated (app : App) (syn : Synthesized) (id : String)
    (props : RDSInstanceProps) (st : RDSInstanceState)
    (h1 : takesImportPath props = false)
    (h2 : construct app syn id props = .ok st) :
    st.createdVpcSubnets = some ⟨SubnetType.PRIVATE_ISOLATED⟩ := by
  rw [construct_eq_create app syn id props h1] at h2
  obtain ⟨hv, eng, he, hst⟩ := constructViaCreate_ok app syn id props (bagOf props) st h2
  obtain ⟨-, hvpc, -⟩ := validate_ok_facts (bagOf props) hv
  subst hst
  simp [RDSInstanceState.createdVpcSubnets, getVpcSubnets, hvpc]

/-- C4 witness: the amended statement at the concrete configuration with
a supplied VPC and a `PUBLIC` selection in the bag. -/
theorem c4_witness :
    takesImportPath propsC4 = false ∧
    (okStateD (construct app0 syn0 "db" propsC4)).createdVpcSubnets =
      some ⟨SubnetType.PRIVATE_ISOLATED⟩ :=
  ⟨rfl, c4_amended_isolated app0 syn0 "db" propsC4
    (okStateD (construct app0 syn0 "db" propsC4)) rfl rfl⟩

/-- C6: on the create-new path with no caller-supplied VPC, the wrapper
creates a network with zero NAT gateways and places the instance in
isolated-private subnets; a caller-supplied VPC is passed to the
provisioning engine unchanged. -/
theorem c6_vpc_resolution (app : App) (syn : Synthesized) (id : String)
    (props : RDSInstanceProps) (st : RDSInstanceState)
    (h1 : takesImportPath props = false)
    (h2 : construct app syn id props = .ok st) :
    (props.vpc = none →
      st.createdVpc = some ⟨0⟩ ∧
      st.createdVpcSubnets = some ⟨SubnetType.PRIVATE_ISOLATED⟩) ∧
    (∀ v, props.vpc = some v → st.createdVpc = some v) := by
  rw [construct_eq_create app syn id props h1] at h2
  obtain ⟨hv, eng, he, hst⟩ := constructViaCreate_ok app syn id props (bagOf props) st h2
  obtain ⟨-, hvpc, -⟩ := validate_ok_facts (bagOf props) hv
  subst hst
  constructor
  · intro hnone
    exact ⟨by simp [RDSInstanceState.createdVpc, getVpc, hnone],
      by simp [RDSInstanceState.createdVpcSubnets, getVpcSubnets, hvpc]⟩
  · intro v hsome
    simp [RDSInstanceState.createdVpc, getVpc, hsome]

/-- C6 witness: constructing with no VPC at all yields a zero-NAT
network and isolated-private subnets. -/
theorem c6_witness :
    takesImportPath propsC6 = false ∧ propsC6.vpc = none ∧
    (okStateD (construct app0 syn0 "db" propsC6)).createdVpc = some ⟨0⟩ ∧
    (okStateD (construct app0 syn0 "db" propsC6)).createdVpcSubnets =
      some ⟨SubnetType.PRIVATE_ISOLATED⟩ := by
  have h := (c6_vpc_resolution app0 syn0 "db" propsC6
    (okStateD (construct app0 syn0 "db" propsC6)) rfl rfl).1 rfl
  exact ⟨rfl, rfl, h.1, h.2⟩

/-- C7: on the create-new path, with no `instanceType` in the override
bag, the compute size passed to the provisioning engine is the small
burstable default `InstanceType.of(BURSTABLE3, SMALL)`; a
caller-supplied `instanceType` is passed through unchanged. -/
theorem c7_instance_type (app : App) (syn : Synthesized) (id : String)
    (props : RDSInstanceProps) (st : RDSInstanceState)
    (h1 : takesImportPath props = false)
    (h2 : construct app syn id props = .ok st) :
    ((bagOf props).instanceType = none →
      st.createdInstanceType = some (InstanceType.of .BURSTABLE3 .SMALL)) ∧
    (∀ t, (bagOf props).instanceType = some t →
      st.createdInstanceType = some t) := by
  rw [construct_eq_create app syn id props h1] at h2
  obtain ⟨hv, eng, he, hst⟩ := constructViaCreate_ok app syn id props (bagOf props) st h2
  subst hst
  constructor
  · intro hn
    simp [RDSInstanceState.createdInstanceType, getInstanceType, hn]
  · intro t ht
    simp [RDSInstanceState.createdInstanceType, getInstanceType, ht]

/-- C7 witness: a caller-supplied `BURSTABLE2`/`MEDIUM` instance type is
passed through unchanged. -/
theorem c7_witness :
    (bagOf propsC7).instanceType =
      some ⟨InstanceClass.BURSTABLE2, InstanceSize.MEDIUM⟩ ∧
    (okStateD (construct app0 syn0 "db" propsC7)).createdInstanceType =
      some ⟨InstanceClass.BURSTABLE2, InstanceSize.MEDIUM⟩ :=
  ⟨rfl, (c7_instance_type app0 syn0 "db" propsC7
    (okStateD (construct app0 syn0 "db" propsC7)) rfl rfl).2
    ⟨InstanceClass.BURSTABLE2, InstanceSize.MEDIUM⟩ rfl⟩

/-- C8: on the create-new path, credentials present in the override bag
without a managed secret make construction fail (with the
SecretManager-only message when no earlier check fires), and
credentials backed by a managed secret pass validation. -/
theorem c8_credentials (app : App) (syn : Synthesized) (id : String)
    (props : RDSInstanceProps) (c : CdkProps)
    (bag : RDSCdkDatabaseInstanceProps) (cr : Credentials)
    (hc : props.cdk = some c) (hi : c.inst = some (.props bag))
    (hcr : bag.credentials = some cr) :
    (cr.secret = none → ∃ e, construct app syn id props = .error e) ∧
    (cr.secret = none → strTruthy bag.engine = false → bag.vpc = none →
      strTruthy bag.databaseName = false →
      construct app syn id props = .error credentialsMsg) ∧
    (∀ s, cr.secret = some s → strTruthy bag.engine = false → bag.vpc = none →
      strTruthy bag.databaseName = false →
      validateCDKPropWhenIsInstanceProps bag = .ok ()) := by
  refine ⟨?_, ?_, ?_⟩
  · intro hs
    cases he : strTruthy bag.engine
    case true =>
      exact ⟨engineConflictMsg, by
        simp [construct, hc, hi, constructViaCreate,
          validateCDKPropWhenIsInstanceProps, he]⟩
    case false =>
      cases hv : bag.vpc
      case some v =>
        exact ⟨vpcConflictMsg, by
          simp [construct, hc, hi, constructViaCreate,
            validateCDKPropWhenIsInstanceProps, he, hv]⟩
      case none =>
        cases hd : strTruthy bag.databaseName
        case true =>
          exact ⟨databaseNameConflictMsg, by
            simp [construct, hc, hi, constructViaCreate,
              validateCDKPropWhenIsInstanceProps, he, hv, hd]⟩
        case false =>
          exact ⟨credentialsMsg, by
            simp [construct, hc, hi, constructViaCreate,
              validateCDKPropWhenIsInstanceProps, he, hv, hd, hcr, hs]⟩
  · intro hs h1 h2 h3
    simp [construct, hc, hi, constructViaCreate,
      validateCDKPropWhenIsInstanceProps, h1, h2, h3, hcr, hs]
  · intro s hs h1 h2 h3
    simp [validateCDKPropWhenIsInstanceProps, h1, h2, h3, hcr, hs]

/-- C8 witness: secret-less credentials in an otherwise clean bag make
construction fail with the SecretManager-only message. -/
theorem c8_witness :
    bagC8.credentials = some ⟨none⟩ ∧
    construct app0 syn0 "db" propsC8 = .error credentialsMsg :=
  ⟨rfl, (c8_credentials app0 syn0 "db" propsC8 cdkC8 bagC8 ⟨none⟩
    rfl rfl rfl).2.1 rfl rfl rfl rfl⟩

/-- C9: for `{databaseName: "db1", engine: "mysql5.7"}` with no VPC and
no overrides, construction succeeds, the created instance's subnet
selection is isolated-private, and its identifier is the stack-scoped
prefix applied to the construct's logical id. -/
theorem c9_end_to_end (app : App) (syn : Synthesized) (id : String) :
    construct app syn id propsC9 =
      .ok
        { id := id
          nodeId := id
          props := propsC9
          inst := .created
            { instanceIdentifier := logicalPrefixedName app id
              engine := .mysql "5.7"
              vpc := ⟨0⟩
              vpcSubnets := some ⟨SubnetType.PRIVATE_ISOLATED⟩
              instanceType := some (InstanceType.of .BURSTABLE3 .SMALL)
              databaseName := "db1"
              secret := some syn.generatedSecret
              instanceArn := syn.instanceArn
              endpointHostname := syn.endpointHostname }
          secret := syn.generatedSecret } := by
  rfl

/-- C10: for every successfully constructed wrapper, the binding
descriptor has client package "rds", plain-typed variables equal to the
public accessors, and permissions mapping the rds-data action to the
instance ARN and the two secretsmanager actions to the secret's full
ARN when set, else to the partial ARN with "*" appended. -/
theorem c10_function_binding (app : App) (syn : Synthesized) (id : String)
    (props : RDSInstanceProps) (st : RDSInstanceState)
    (_h : construct app syn id props = .ok st) :
    (getFunctionBinding st).clientPackage = "rds" ∧
    (getFunctionBinding st).vars =
      [("instanceArn", ⟨"plain", st.instanceArn⟩),
       ("secretArn", ⟨"plain", st.secretArn⟩),
       ("databaseName", ⟨"plain", st.databaseName⟩)] ∧
    (∀ f, st.secret.secretFullArn = some f → f ≠ "" →
      (getFunctionBinding st).permissions =
        [("rds-data:*", [st.instanceArn]),
         ("secretsmanager:GetSecretValue", [f]),
         ("secretsmanager:DescribeSecret", [f])]) ∧
    (st.secret.secretFullArn = none →
      (getFunctionBinding st).permissions =
        [("rds-data:*", [st.instanceArn]),
         ("secretsmanager:GetSecretValue", [st.secretArn ++ "*"]),
         ("secretsmanager:DescribeSecret", [st.secretArn ++ "*"])]) := by
  refine ⟨rfl, rfl, ?_, ?_⟩
  · intro f hf hne
    simp [getFunctionBinding, hf, orTruthy, hne]
  · intro hf
    simp [getFunctionBinding, hf, orTruthy, RDSInstanceState.secretArn]

/-- C10 witness: the descriptor of the imported configuration whose
secret has a full ARN maps both secretsmanager actions to that full
ARN. -/
theorem c10_witness :
    (getFunctionBinding (okStateD (construct app0 syn0 "db" propsC10))).clientPackage
      = "rds" ∧
    (getFunctionBinding (okStateD (construct app0 syn0 "db" propsC10))).permissions =
      [("rds-data:*", ["arn:aws:rds:us-east-1:123456789012:db:c10"]),
       ("secretsmanager:GetSecretValue",
         ["arn:aws:secretsmanager:us-east-1:123456789012:secret:c10-XyZ"]),
       ("secretsmanager:DescribeSecret",
         ["arn:aws:secretsmanager:us-east-1:123456789012:secret:c10-XyZ"])] := by
  have h := c10_function_binding app0 syn0 "db" propsC10
    (okStateD (construct app0 syn0 "db" propsC10)) rfl
  exact ⟨h.1,
    h.2.2.1 "arn:aws:secretsmanager:us-east-1:123456789012:secret:c10-XyZ" rfl
      (by decide)⟩

end RDSInstanceSpec
